import Mathlib

/-!
Shallow embedding of the infra-scheduler notification worker
(source: the final scheduler variant in `src/unnamed/part_000`).

The worker drains due notification jobs from a document store, claims each
with a per-document transaction, dispatches them to a push gateway, and
records outcomes.  Store timestamps are modelled as integers, documents as
records, and the gateway as a `SendOutcome` value; raw document fields that
are consumed through the string-sanitizing helper `toSafeString` are
modelled as `Option String` (with `none` standing for JavaScript
`null`/`undefined`).
-/

namespace InfraScheduler

/-- Job lifecycle states as written to the `status` field. -/
inductive Status where
  | queued
  | processing
  | sent
  | error
deriving DecidableEq, Repr

/-- The sanitizer `toSafeString` (part_000 lines 42-46): `null`/`undefined` become absent,
otherwise stringify; the empty string becomes absent (`s.length ? s : undefined`). -/
def toSafeString (v : Option String) : Option String :=
  match v with
  | none => none
  | some s => if s.length = 0 then none else some s

/-- The error signal inspected by the failure classifier: an optional
`code` field, an optional nested `errorInfo.code` fallback, and a message. -/
structure ErrSig where
  code : Option String
  errorInfoCode : Option String
  message : String
deriving DecidableEq, Repr

/-- JavaScript `e.code || e.errorInfo?.code` (part_000 line 53): a missing or
empty (falsy) `code` falls back to `errorInfo.code`; a missing fallback is
the empty string, which matches no known code. -/
def effectiveCode (e : ErrSig) : String :=
  match e.code with
  | none => e.errorInfoCode.getD ""
  | some c => if c.length = 0 then e.errorInfoCode.getD "" else c

/-- Does `pat` match at the head of `cs`? -/
def matchesAt : List Char → List Char → Bool
  | _, [] => true
  | [], _ :: _ => false
  | c :: cs, p :: ps => c == p && matchesAt cs ps

/-- Does `pat` occur (contiguously) anywhere in `cs`? -/
def occursIn : List Char → List Char → Bool
  | [], pat => matchesAt [] pat
  | c :: cs, pat => matchesAt (c :: cs) pat || occursIn cs pat

/-- Case-sensitive substring test, used to embed the regex alternation. -/
def containsSub (s pat : String) : Bool :=
  occursIn s.data pat.data

/-- ASCII lowering of a string, character by character (the semantics of
`String.toLower`, written with structural recursion). -/
def lowerString (s : String) : String :=
  String.mk (s.data.map Char.toLower)

/-- The regex `/429|quota|exhausted|unavailable|deadline/i` test
(part_000 line 61): case-insensitive via lowering the message. -/
def matchesTransientPattern (msg : String) : Bool :=
  containsSub (lowerString msg) "429" ||
  containsSub (lowerString msg) "quota" ||
  containsSub (lowerString msg) "exhausted" ||
  containsSub (lowerString msg) "unavailable" ||
  containsSub (lowerString msg) "deadline"

/-- The classifier `isRetryableError` (part_000 lines 52-63): retryable iff the effective
code is one of four literal codes or the message matches the transient
text pattern. -/
def isRetryableError (e : ErrSig) : Bool :=
  effectiveCode e == "resource-exhausted" ||
  effectiveCode e == "quota-exceeded" ||
  effectiveCode e == "aborted" ||
  effectiveCode e == "unavailable" ||
  matchesTransientPattern e.message

/-- Modelled from the spec (for comparison with `isRetryableError`): a
failure is retryable if "its code matches a known transient class
(rate-limit / resource-exhaustion / service-unavailable / aborted /
deadline) or its message matches a transient-failure text pattern",
reading the five classes as the standard codes `quota-exceeded`,
`resource-exhausted`, `unavailable`, `aborted`, `deadline-exceeded`. -/
def specIsRetryable (e : ErrSig) : Bool :=
  effectiveCode e == "quota-exceeded" ||
  effectiveCode e == "resource-exhausted" ||
  effectiveCode e == "unavailable" ||
  effectiveCode e == "aborted" ||
  effectiveCode e == "deadline-exceeded" ||
  matchesTransientPattern e.message

/-- A scheduled notification document (`scheduled_notifications` collection),
as read by the worker.  `attemptCount` models `data.attemptCount || 0`. -/
structure DocData where
  id : String
  title : Option String
  body : Option String
  topic : Option String
  token : Option String
  imageUrl : Option String
  action : Option String
  additionalData : Option (List (String × String))
  debug : Bool
  expiry : Option String
  attemptCount : Nat
  status : Status
  scheduleTime : Int
  lastResult : Option String
deriving DecidableEq, Repr

/-- The outbound FCM message (part_000 lines 124-157).  The data block is a
key/value list in which later entries (the spread of `additionalData`)
shadow earlier ones, mirroring JavaScript object-spread order. -/
structure Message where
  topic : Option String
  token : Option String
  notifTitle : String
  notifBody : String
  notifImageUrl : Option String
  dataBlock : List (String × String)
  androidChannelId : String
  androidImageUrl : Option String
  androidPriority : String
  apnsMutableContent : Nat
  apnsContentAvailable : Nat
  apnsFcmOptionsImageUrl : Option String
deriving DecidableEq, Repr

/-- Message construction from the sanitized job fields (part_000 lines 108-157). -/
def buildMessage (data : DocData) : Message :=
  let title := (toSafeString data.title).getD "Pemberitahuan"
  let body := (toSafeString data.body).getD ""
  let topic := toSafeString data.topic
  let token := toSafeString data.token
  let imageUrl := toSafeString data.imageUrl
  let action := toSafeString data.action
  { topic := topic
    token := token
    notifTitle := title
    notifBody := body
    notifImageUrl := imageUrl
    dataBlock :=
      [("title", title), ("body", body), ("imageUrl", imageUrl.getD ""),
       ("action", action.getD ""),
       ("debug", if data.debug then "true" else "false"),
       ("screen", "/notifications_screen")] ++ data.additionalData.getD []
    androidChannelId := "high_importance_channel"
    androidImageUrl := imageUrl
    androidPriority := "HIGH"
    apnsMutableContent := 1
    apnsContentAvailable := 1
    apnsFcmOptionsImageUrl := imageUrl }

/-- One entry of the `notifications` history collection (the `logDoc` of
part_000 lines 170-179); the store timestamp is not modelled. -/
structure HistoryRecord where
  title : String
  body : String
  imageUrl : Option String
  action : Option String
  debug : Bool
  expiry : Option String
  fromTag : String
deriving DecidableEq, Repr

/-- The payload snapshot copied into a dead letter (part_000 line 193). -/
structure PayloadSnapshot where
  title : String
  body : String
  topic : Option String
  token : Option String
  imageUrl : Option String
  action : Option String
  additionalData : Option (List (String × String))
  debug : Bool
  expiry : Option String
deriving DecidableEq, Repr

/-- One entry of the `failed_notifications` dead-letter collection
(part_000 lines 191-198); the store timestamp is not modelled. -/
structure DeadLetterRecord where
  refId : String
  payload : PayloadSnapshot
  error : String
  attempts : Nat
  fromTag : String
deriving DecidableEq, Repr

/-- Result of `messaging.send`: an opaque message id, or a thrown error. -/
inductive SendOutcome where
  | ok (msgId : String)
  | err (e : ErrSig)
deriving DecidableEq, Repr

/-- Run configuration read from the environment (part_000 lines 73-76). -/
structure Config where
  dryRun : Bool
  maxAttempts : Nat
deriving DecidableEq, Repr

/-- Everything the per-job loop body does to/with one due job:
whether the claim transaction wrote `processing`, whether the gateway was
invoked, the sequence of `status` values written to the document, the final
values of the fields the loop updates, the message built (if any), and the
history / dead-letter appends. -/
structure StepResult where
  claimed : Bool
  gatewayCalled : Bool
  statusWrites : List Status
  finalStatus : Status
  finalLastResult : String
  finalAttemptCount : Nat
  message : Option Message
  history : List HistoryRecord
  dead : List DeadLetterRecord
deriving DecidableEq, Repr

/-- The loop body for one due job (part_000 lines 94-201).  `data` is the
page-snapshot document, `curStatus` the status seen by the transactional
re-read (`none` when the document no longer exists), and `outcome` what the
gateway would return if invoked.  Note that the transaction's result is not
consulted afterwards: the body proceeds to dispatch whether or not the
claim wrote `processing`. -/
def processJob (cfg : Config) (data : DocData) (curStatus : Option Status)
    (outcome : SendOutcome) : StepResult :=
  let claimed : Bool :=
    match curStatus with
    | some Status.queued => true
    | _ => false
  let claimWrites : List Status := if claimed then [Status.processing] else []
  let title := (toSafeString data.title).getD "Pemberitahuan"
  let body := (toSafeString data.body).getD ""
  let topic := toSafeString data.topic
  let token := toSafeString data.token
  let imageUrl := toSafeString data.imageUrl
  let action := toSafeString data.action
  let expiry := toSafeString data.expiry
  if topic = none ∧ token = none then
    { claimed := claimed
      gatewayCalled := false
      statusWrites := claimWrites ++ [Status.error]
      finalStatus := Status.error
      finalLastResult := "missing-target"
      finalAttemptCount := data.attemptCount
      message := none
      history := []
      dead := [] }
  else
    let message := buildMessage data
    let logDoc : HistoryRecord :=
      { title := title, body := body, imageUrl := imageUrl, action := action,
        debug := data.debug, expiry := expiry, fromTag := "github-actions" }
    if cfg.dryRun then
      { claimed := claimed
        gatewayCalled := false
        statusWrites := claimWrites ++ [Status.sent]
        finalStatus := Status.sent
        finalLastResult := "dry-run"
        finalAttemptCount := data.attemptCount
        message := some message
        history := [logDoc]
        dead := [] }
    else
      match outcome with
      | SendOutcome.ok _ =>
        { claimed := claimed
          gatewayCalled := true
          statusWrites := claimWrites ++ [Status.sent]
          finalStatus := Status.sent
          finalLastResult := "ok"
          finalAttemptCount := data.attemptCount
          message := some message
          history := [logDoc]
          dead := [] }
      | SendOutcome.err e =>
        let attempts := data.attemptCount + 1
        if attempts < cfg.maxAttempts ∧ isRetryableError e then
          { claimed := claimed
            gatewayCalled := true
            statusWrites := claimWrites ++ [Status.queued]
            finalStatus := Status.queued
            finalLastResult := e.message
            finalAttemptCount := attempts
            message := some message
            history := []
            dead := [] }
        else
          { claimed := claimed
            gatewayCalled := true
            statusWrites := claimWrites ++ [Status.error]
            finalStatus := Status.error
            finalLastResult := e.message
            finalAttemptCount := attempts
            message := some message
            history := []
            dead := [{ refId := data.id
                       payload := { title := title, body := body, topic := topic,
                                    token := token, imageUrl := imageUrl,
                                    action := action,
                                    additionalData := data.additionalData,
                                    debug := data.debug, expiry := expiry }
                       error := e.message
                       attempts := attempts
                       fromTag := "github-actions" }] }

/-- The document-field updates the loop body commits (`doc.ref.update`):
every path writes `status` and `lastResult`; only the failure paths write
`attemptCount`, which `StepResult.finalAttemptCount` already accounts for. -/
def applyResult (d : DocData) (r : StepResult) : DocData :=
  { d with status := r.finalStatus,
           lastResult := some r.finalLastResult,
           attemptCount := r.finalAttemptCount }

/-- State of a single job document across repeated worker runs, together
with the accumulated history and dead-letter appends, the cumulative list
of `status` writes, and the number of runs that returned the job to
`queued` (the `processing → queued` retry cycles). -/
structure RunState where
  doc : DocData
  history : List HistoryRecord
  dead : List DeadLetterRecord
  writes : List Status
  requeues : Nat
deriving DecidableEq, Repr

/-- One whole worker run restricted to a single job: the due-page query
selects the document iff `status == queued ∧ scheduleTime <= now`
(part_000 lines 81-87); a selected document goes through the loop body,
and with no concurrent worker the transactional re-read sees the page
status. -/
def runOnce (cfg : Config) (now : Int) (outcome : SendOutcome)
    (s : RunState) : RunState :=
  if s.doc.status = Status.queued ∧ s.doc.scheduleTime ≤ now then
    let r := processJob cfg s.doc (some s.doc.status) outcome
    { doc := applyResult s.doc r
      history := s.history ++ r.history
      dead := s.dead ++ r.dead
      writes := s.writes ++ r.statusWrites
      requeues := s.requeues + (if r.finalStatus = Status.queued then 1 else 0) }
  else s

/-- Iterate `n` successive worker runs over the single job. -/
def runN (cfg : Config) (now : Int) (outcome : SendOutcome) :
    Nat → RunState → RunState
  | 0, s => s
  | n + 1, s => runOnce cfg now outcome (runN cfg now outcome n s)

/-- The batch driver's page loop (part_000 lines 79-205), abstracted to the
page sizes the store returns: the loop runs at most `fuel = MAX_BATCHES`
iterations; an iteration whose fetched page is empty stops before
processing, and one whose page holds fewer than `BATCH_LIMIT` jobs stops
after processing.  An exhausted `pages` list means the store keeps
returning empty pages.  The value counts how many page fetches (loop
iterations) are performed. -/
def pageFetches (batchLimit : Nat) : Nat → List Nat → Nat
  | 0, _ => 0
  | _ + 1, [] => 1
  | fuel + 1, p :: rest =>
    if p = 0 then 1
    else if p < batchLimit then 1
    else 1 + pageFetches batchLimit fuel rest

/-- The sanitizer maps exactly `null`/`undefined` and the empty string to absent. -/
theorem toSafeString_eq_none_iff (v : Option String) :
    toSafeString v = none ↔ v = none ∨ v = some "" := by
  rcases v with _ | ⟨⟨cs⟩⟩
  · simp [toSafeString]
  · cases cs with
    | nil => simp [toSafeString, String.length]
    | cons c cs =>
      simp only [toSafeString, String.length, List.length_cons]
      constructor
      · intro h
        split at h <;> simp_all
      · rintro (h | h) <;> simp_all [String.ext_iff]

/-- A sample due job document used to instantiate the theorems. -/
def sampleDoc : DocData :=
  { id := "j1", title := some "X", body := some "Y", topic := some "news",
    token := none, imageUrl := none, action := none, additionalData := none,
    debug := false, expiry := none, attemptCount := 0,
    status := Status.queued, scheduleTime := -1, lastResult := none }

/-- Claim C8 counterexample: for the error signal with code
`deadline-exceeded` and message `timed out`, the spec-worded classifier
(code in a transient class, deadline included) says retryable, but the
code's classifier returns fatal: the source checks no deadline code, only
the message pattern. -/
theorem deadline_code_counterexample :
    specIsRetryable { code := some "deadline-exceeded", errorInfoCode := none,
                      message := "timed out" } = true ∧
    isRetryableError { code := some "deadline-exceeded", errorInfoCode := none,
                       message := "timed out" } = false := by decide

/-- Claim C8 (amended): the classifier is retryable exactly when the
effective code is one of the four literal codes `resource-exhausted`,
`quota-exceeded`, `aborted`, `unavailable`, or the lowered message
contains one of the five transient substrings; it is a pure function of
the error signal (a `def` in this embedding), and in particular a
deadline-class code alone is not retryable unless its message matches. -/
theorem isRetryableError_characterization (e : ErrSig) :
    isRetryableError e = true ↔
      (effectiveCode e ∈ (["resource-exhausted", "quota-exceeded", "aborted",
          "unavailable"] : List String) ∨
       ∃ p ∈ (["429", "quota", "exhausted", "unavailable",
          "deadline"] : List String), containsSub (lowerString e.message) p = true) := by
  simp only [isRetryableError, matchesTransientPattern, Bool.or_eq_true, beq_iff_eq,
    List.mem_cons, List.not_mem_nil, or_false, List.mem_singleton, or_assoc]
  constructor
  · rintro (h | h | h | h | h | h | h | h | h)
    · exact Or.inl h
    · exact Or.inr (Or.inl h)
    · exact Or.inr (Or.inr (Or.inl h))
    · exact Or.inr (Or.inr (Or.inr (Or.inl h)))
    · exact Or.inr (Or.inr (Or.inr (Or.inr ⟨"429", by simp, h⟩)))
    · exact Or.inr (Or.inr (Or.inr (Or.inr ⟨"quota", by simp, h⟩)))
    · exact Or.inr (Or.inr (Or.inr (Or.inr ⟨"exhausted", by simp, h⟩)))
    · exact Or.inr (Or.inr (Or.inr (Or.inr ⟨"unavailable", by simp, h⟩)))
    · exact Or.inr (Or.inr (Or.inr (Or.inr ⟨"deadline", by simp, h⟩)))
  · rintro (h | h | h | h | ⟨p, hp, hocc⟩)
    · tauto
    · tauto
    · tauto
    · tauto
    · rcases hp with h | h | h | h | h <;> subst h <;> tauto

/-- Claim C10: a job whose `topic` and `token` raw fields are each absent
or the empty string is treated as target-less — the sanitizer sends both
to absent, the job is routed to `error` with `lastResult` `missing-target`,
and no outbound message is built from an empty-string target. -/
theorem empty_string_targets_rejected (cfg : Config) (data : DocData)
    (curStatus : Option Status) (outcome : SendOutcome)
    (htopic : data.topic = none ∨ data.topic = some "")
    (htoken : data.token = none ∨ data.token = some "") :
    toSafeString data.topic = none ∧ toSafeString data.token = none ∧
    (processJob cfg data curStatus outcome).finalStatus = Status.error ∧
    (processJob cfg data curStatus outcome).finalLastResult = "missing-target" ∧
    (processJob cfg data curStatus outcome).message = none := by
  have h1 : toSafeString data.topic = none := (toSafeString_eq_none_iff _).mpr htopic
  have h2 : toSafeString data.token = none := (toSafeString_eq_none_iff _).mpr htoken
  refine ⟨h1, h2, ?_, ?_, ?_⟩ <;> simp [processJob, h1, h2]

/-- A sample job whose topic is the empty string and whose token is null. -/
def emptyTargetDoc : DocData := { sampleDoc with topic := some "", token := none }

/-- Claim C10 witness: concrete job with empty-string topic and null token. -/
theorem empty_string_targets_rejected_witness :
    toSafeString emptyTargetDoc.topic = none ∧ toSafeString emptyTargetDoc.token = none ∧
    (processJob ⟨false, 5⟩ emptyTargetDoc
        (some Status.queued) (SendOutcome.ok "m")).finalStatus = Status.error ∧
    (processJob ⟨false, 5⟩ emptyTargetDoc
        (some Status.queued) (SendOutcome.ok "m")).finalLastResult = "missing-target" ∧
    (processJob ⟨false, 5⟩ emptyTargetDoc
        (some Status.queued) (SendOutcome.ok "m")).message = none :=
  empty_string_targets_rejected ⟨false, 5⟩ emptyTargetDoc (some Status.queued)
    (SendOutcome.ok "m") (Or.inr rfl) (Or.inl rfl)

/-- Claim C4: a job lacking both topic and token (after sanitizing) is
rejected before the gateway is invoked: it ends in `error` with
`lastResult` `missing-target`, the gateway is never called, no
HistoryRecord and no DeadLetterRecord is written, and `attemptCount` is
untouched. -/
theorem missing_target_rejected (cfg : Config) (data : DocData)
    (curStatus : Option Status) (outcome : SendOutcome)
    (htopic : toSafeString data.topic = none)
    (htoken : toSafeString data.token = none) :
    (processJob cfg data curStatus outcome).finalStatus = Status.error ∧
    (processJob cfg data curStatus outcome).finalLastResult = "missing-target" ∧
    (processJob cfg data curStatus outcome).gatewayCalled = false ∧
    (processJob cfg data curStatus outcome).history = [] ∧
    (processJob cfg data curStatus outcome).dead = [] ∧
    (processJob cfg data curStatus outcome).finalAttemptCount = data.attemptCount := by
  refine ⟨?_, ?_, ?_, ?_, ?_, ?_⟩ <;> simp [processJob, htopic, htoken]

/-- A sample job with neither topic nor token. -/
def noTargetDoc : DocData := { sampleDoc with topic := none, token := none }

/-- Claim C4 witness: concrete target-less job. -/
theorem missing_target_rejected_witness :
    (processJob ⟨false, 5⟩ noTargetDoc
        (some Status.queued) (SendOutcome.ok "m")).finalStatus = Status.error ∧
    (processJob ⟨false, 5⟩ noTargetDoc
        (some Status.queued) (SendOutcome.ok "m")).finalLastResult = "missing-target" ∧
    (processJob ⟨false, 5⟩ noTargetDoc
        (some Status.queued) (SendOutcome.ok "m")).gatewayCalled = false ∧
    (processJob ⟨false, 5⟩ noTargetDoc
        (some Status.queued) (SendOutcome.ok "m")).history = [] ∧
    (processJob ⟨false, 5⟩ noTargetDoc
        (some Status.queued) (SendOutcome.ok "m")).dead = [] ∧
    (processJob ⟨false, 5⟩ noTargetDoc
        (some Status.queued) (SendOutcome.ok "m")).finalAttemptCount =
      noTargetDoc.attemptCount :=
  missing_target_rejected ⟨false, 5⟩ noTargetDoc (some Status.queued)
    (SendOutcome.ok "m") (by decide) (by decide)

/-- A sample job carrying both a topic and a token. -/
def bothTargetsDoc : DocData := { sampleDoc with token := some "tok-1" }

/-- Claim C5 counterexample: a job carrying both a topic and a token does
produce a message with both addressing fields set — the message copies
both fields unconditionally. -/
theorem both_targets_counterexample :
    (buildMessage bothTargetsDoc).topic = some "news" ∧
    (buildMessage bothTargetsDoc).token = some "tok-1" := by decide

/-- Claim C5 (amended): the outbound message copies the sanitized topic
and token fields of the job verbatim; hence for a job with exactly one
delivery target exactly one addressing field is set, mirroring the job's
target field, while a job carrying both targets yields a message with both
fields set. -/
theorem message_mirrors_single_target (data : DocData)
    (h : (toSafeString data.topic).isSome = (toSafeString data.token).isNone) :
    (buildMessage data).topic = toSafeString data.topic ∧
    (buildMessage data).token = toSafeString data.token ∧
    ((buildMessage data).topic.isSome = true ↔ (buildMessage data).token.isSome = false) := by
  refine ⟨by simp [buildMessage], by simp [buildMessage], ?_⟩
  simp only [buildMessage]
  rw [h]
  cases toSafeString data.token <;> simp

/-- Claim C5 witness: job with a topic and no token. -/
theorem message_mirrors_single_target_witness :
    (buildMessage sampleDoc).topic = toSafeString sampleDoc.topic ∧
    (buildMessage sampleDoc).token = toSafeString sampleDoc.token ∧
    ((buildMessage sampleDoc).topic.isSome = true ↔
      (buildMessage sampleDoc).token.isSome = false) :=
  message_mirrors_single_target sampleDoc (by decide)

/-- Claim C6: with dry-run enabled, a job with a delivery target never
reaches the gateway, yet is still marked `sent` with result `dry-run`,
and the HistoryRecord written is exactly the one the normal success path
writes. -/
theorem dry_run_skips_gateway (cfg : Config) (data : DocData)
    (curStatus : Option Status) (outcome : SendOutcome) (mid : String)
    (hdry : cfg.dryRun = true)
    (htarget : ¬(toSafeString data.topic = none ∧ toSafeString data.token = none)) :
    (processJob cfg data curStatus outcome).gatewayCalled = false ∧
    (processJob cfg data curStatus outcome).finalStatus = Status.sent ∧
    (processJob cfg data curStatus outcome).finalLastResult = "dry-run" ∧
    (processJob cfg data curStatus outcome).history =
      (processJob { cfg with dryRun := false } data curStatus
        (SendOutcome.ok mid)).history := by
  refine ⟨?_, ?_, ?_, ?_⟩ <;> simp [processJob, hdry, htarget]

/-- Claim C6 witness: dry-run on the sample job. -/
theorem dry_run_skips_gateway_witness :
    (processJob ⟨true, 5⟩ sampleDoc (some Status.queued)
        (SendOutcome.ok "m")).gatewayCalled = false ∧
    (processJob ⟨true, 5⟩ sampleDoc (some Status.queued)
        (SendOutcome.ok "m")).finalStatus = Status.sent ∧
    (processJob ⟨true, 5⟩ sampleDoc (some Status.queued)
        (SendOutcome.ok "m")).finalLastResult = "dry-run" ∧
    (processJob ⟨true, 5⟩ sampleDoc (some Status.queued)
        (SendOutcome.ok "m")).history =
      (processJob { (⟨true, 5⟩ : Config) with dryRun := false } sampleDoc
        (some Status.queued) (SendOutcome.ok "mid")).history :=
  dry_run_skips_gateway ⟨true, 5⟩ sampleDoc (some Status.queued)
    (SendOutcome.ok "m") "mid" rfl (by decide)

/-- Claim C7: a job whose dispatch succeeds ends with status `sent`,
result `ok`, and exactly one new HistoryRecord whose content fields
(title, body, image reference, action) are the job's sanitized content
fields; no dead letter is produced. -/
theorem success_sent_and_history (cfg : Config) (data : DocData)
    (curStatus : Option Status) (mid : String)
    (hdry : cfg.dryRun = false)
    (htarget : ¬(toSafeString data.topic = none ∧ toSafeString data.token = none)) :
    (processJob cfg data curStatus (SendOutcome.ok mid)).finalStatus = Status.sent ∧
    (processJob cfg data curStatus (SendOutcome.ok mid)).finalLastResult = "ok" ∧
    (processJob cfg data curStatus (SendOutcome.ok mid)).history =
      [{ title := (toSafeString data.title).getD "Pemberitahuan",
         body := (toSafeString data.body).getD "",
         imageUrl := toSafeString data.imageUrl,
         action := toSafeString data.action,
         debug := data.debug,
         expiry := toSafeString data.expiry,
         fromTag := "github-actions" }] ∧
    (processJob cfg data curStatus (SendOutcome.ok mid)).dead = [] := by
  refine ⟨?_, ?_, ?_, ?_⟩ <;> simp [processJob, hdry, htarget]

/-- Claim C7 witness: successful dispatch of the sample job. -/
theorem success_sent_and_history_witness :
    (processJob ⟨false, 5⟩ sampleDoc (some Status.queued)
        (SendOutcome.ok "m")).finalStatus = Status.sent ∧
    (processJob ⟨false, 5⟩ sampleDoc (some Status.queued)
        (SendOutcome.ok "m")).finalLastResult = "ok" ∧
    (processJob ⟨false, 5⟩ sampleDoc (some Status.queued)
        (SendOutcome.ok "m")).history =
      [{ title := (toSafeString sampleDoc.title).getD "Pemberitahuan",
         body := (toSafeString sampleDoc.body).getD "",
         imageUrl := toSafeString sampleDoc.imageUrl,
         action := toSafeString sampleDoc.action,
         debug := sampleDoc.debug,
         expiry := toSafeString sampleDoc.expiry,
         fromTag := "github-actions" }] ∧
    (processJob ⟨false, 5⟩ sampleDoc (some Status.queued)
        (SendOutcome.ok "m")).dead = [] :=
  success_sent_and_history ⟨false, 5⟩ sampleDoc (some Status.queued) "m"
    rfl (by decide)

/-- Claim C1: contrary to the claim, the loop body discards the claim
transaction's outcome.  For a due job whose transactional re-read shows
`status == processing` (already claimed by a concurrent worker), the
transaction writes nothing (`claimed = false`), yet the worker still
invokes the gateway, marks the job `sent` and appends a HistoryRecord —
the job is not excluded from dispatch, so a second worker can deliver the
same job. -/
theorem race_lost_job_still_dispatched :
    (processJob ⟨false, 5⟩ sampleDoc (some Status.processing)
        (SendOutcome.ok "m")).claimed = false ∧
    (processJob ⟨false, 5⟩ sampleDoc (some Status.processing)
        (SendOutcome.ok "m")).statusWrites = [Status.sent] ∧
    (processJob ⟨false, 5⟩ sampleDoc (some Status.processing)
        (SendOutcome.ok "m")).gatewayCalled = true ∧
    (processJob ⟨false, 5⟩ sampleDoc (some Status.processing)
        (SendOutcome.ok "m")).finalStatus = Status.sent ∧
    (processJob ⟨false, 5⟩ sampleDoc (some Status.processing)
        (SendOutcome.ok "m")).history.length = 1 := by decide

/-- The page loop never performs more fetches than its fuel (`MAX_BATCHES`). -/
theorem pageFetches_le (batchLimit fuel : Nat) (pages : List Nat) :
    pageFetches batchLimit fuel pages ≤ fuel := by
  induction fuel generalizing pages with
  | zero => simp [pageFetches]
  | succ n ih =>
    cases pages with
    | nil => simp [pageFetches]
    | cons p rest =>
      simp only [pageFetches]
      split
      · omega
      · split
        · omega
        · have := ih rest
          omega

/-- The page loop stops at the first empty or short page: if the page at
position `ps1.length` is empty or short, at most `ps1.length + 1` fetches
happen. -/
theorem pageFetches_stops_early (batchLimit fuel : Nat) (ps1 ps2 : List Nat)
    (p : Nat) (hp : p = 0 ∨ p < batchLimit) :
    pageFetches batchLimit fuel (ps1 ++ p :: ps2) ≤ ps1.length + 1 := by
  induction ps1 generalizing fuel with
  | nil =>
    cases fuel with
    | zero => simp [pageFetches]
    | succ n =>
      simp only [List.nil_append, pageFetches, List.length_nil]
      split
      · omega
      · split
        · omega
        · rcases hp with h | h <;> omega
  | cons q qs ih =>
    cases fuel with
    | zero => simp [pageFetches]
    | succ n =>
      simp only [List.cons_append, pageFetches, List.length_cons, List.append_eq]
      split
      · omega
      · split
        · omega
        · have := ih n
          omega

/-- Claim C9: for every configuration and sequence of due pages, the batch
driver terminates: it performs at most `maxBatches` page iterations, and
any iteration that fetches an empty page (size 0) or a short page (size
below the page limit) is the last one. -/
theorem batch_driver_terminates (batchLimit maxBatches : Nat) (pages : List Nat) :
    pageFetches batchLimit maxBatches pages ≤ maxBatches ∧
    ∀ ps1 p ps2, pages = ps1 ++ p :: ps2 → (p = 0 ∨ p < batchLimit) →
      pageFetches batchLimit maxBatches pages ≤ ps1.length + 1 :=
  ⟨pageFetches_le batchLimit maxBatches pages,
   fun ps1 p ps2 heq hp => heq ▸ pageFetches_stops_early batchLimit maxBatches ps1 ps2 p hp⟩

/-- Claim C9 witness: with the default page size 50 and 10 batches, a run
whose third page holds 30 jobs stops after three page fetches. -/
theorem batch_driver_terminates_witness :
    pageFetches 50 10 [50, 50, 30] ≤ 10 ∧ pageFetches 50 10 [50, 50, 30] ≤ 3 :=
  ⟨(batch_driver_terminates 50 10 [50, 50, 30]).1,
   (batch_driver_terminates 50 10 [50, 50, 30]).2 [50, 50] 30 [] rfl (Or.inr (by decide))⟩

/-- Claim C3: a job whose first dispatch attempt fails with a
fatal-classified error goes straight from `processing` to `error` (status
writes `[processing, error]`, never returning to `queued`), with
`attemptCount` 1, `lastResult` the error text, no HistoryRecord, and
exactly one DeadLetterRecord carrying the job id, the full payload
snapshot, the error message and the attempt count. -/
theorem fatal_failure_single_attempt (cfg : Config) (data : DocData) (e : ErrSig)
    (hdry : cfg.dryRun = false) (hfatal : isRetryableError e = false)
    (hatt : data.attemptCount = 0)
    (htarget : ¬(toSafeString data.topic = none ∧ toSafeString data.token = none)) :
    (processJob cfg data (some Status.queued) (SendOutcome.err e)).statusWrites =
      [Status.processing, Status.error] ∧
    (processJob cfg data (some Status.queued) (SendOutcome.err e)).finalStatus =
      Status.error ∧
    (processJob cfg data (some Status.queued) (SendOutcome.err e)).finalAttemptCount = 1 ∧
    (processJob cfg data (some Status.queued) (SendOutcome.err e)).finalLastResult =
      e.message ∧
    (processJob cfg data (some Status.queued) (SendOutcome.err e)).history = [] ∧
    (processJob cfg data (some Status.queued) (SendOutcome.err e)).dead =
      [{ refId := data.id,
         payload := { title := (toSafeString data.title).getD "Pemberitahuan",
                      body := (toSafeString data.body).getD "",
                      topic := toSafeString data.topic,
                      token := toSafeString data.token,
                      imageUrl := toSafeString data.imageUrl,
                      action := toSafeString data.action,
                      additionalData := data.additionalData,
                      debug := data.debug,
                      expiry := toSafeString data.expiry },
         error := e.message, attempts := 1, fromTag := "github-actions" }] := by
  refine ⟨?_, ?_, ?_, ?_, ?_, ?_⟩ <;> simp [processJob, hdry, hfatal, hatt, htarget]

/-- A permanently failing error signal: an invalid registration token. -/
def fatalErr : ErrSig :=
  { code := some "registration-token-not-registered", errorInfoCode := none,
    message := "Requested entity was not found." }

/-- Claim C3 witness: the fatal error on the sample job's first attempt. -/
theorem fatal_failure_single_attempt_witness :
    (processJob ⟨false, 5⟩ sampleDoc (some Status.queued)
        (SendOutcome.err fatalErr)).statusWrites =
      [Status.processing, Status.error] ∧
    (processJob ⟨false, 5⟩ sampleDoc (some Status.queued)
        (SendOutcome.err fatalErr)).finalStatus = Status.error ∧
    (processJob ⟨false, 5⟩ sampleDoc (some Status.queued)
        (SendOutcome.err fatalErr)).finalAttemptCount = 1 ∧
    (processJob ⟨false, 5⟩ sampleDoc (some Status.queued)
        (SendOutcome.err fatalErr)).finalLastResult = fatalErr.message ∧
    (processJob ⟨false, 5⟩ sampleDoc (some Status.queued)
        (SendOutcome.err fatalErr)).history = [] ∧
    (processJob ⟨false, 5⟩ sampleDoc (some Status.queued)
        (SendOutcome.err fatalErr)).dead =
      [{ refId := sampleDoc.id,
         payload := { title := (toSafeString sampleDoc.title).getD "Pemberitahuan",
                      body := (toSafeString sampleDoc.body).getD "",
                      topic := toSafeString sampleDoc.topic,
                      token := toSafeString sampleDoc.token,
                      imageUrl := toSafeString sampleDoc.imageUrl,
                      action := toSafeString sampleDoc.action,
                      additionalData := sampleDoc.additionalData,
                      debug := sampleDoc.debug,
                      expiry := toSafeString sampleDoc.expiry },
         error := fatalErr.message, attempts := 1, fromTag := "github-actions" }] :=
  fatal_failure_single_attempt ⟨false, 5⟩ sampleDoc fatalErr rfl (by decide) rfl (by decide)

/-- One worker run over a due, claimed job whose dispatch fails with a
retryable error while attempts remain: the job cycles back to `queued`
with `attemptCount` incremented and `lastResult` the error text, the
status writes are `processing` then `queued`, and nothing is appended. -/
theorem runOnce_retry_mid (cfg : Config) (now : Int) (e : ErrSig) (s : RunState)
    (hdry : cfg.dryRun = false) (hretry : isRetryableError e = true)
    (hstatus : s.doc.status = Status.queued) (hdue : s.doc.scheduleTime ≤ now)
    (htarget : ¬(toSafeString s.doc.topic = none ∧ toSafeString s.doc.token = none))
    (hlt : s.doc.attemptCount + 1 < cfg.maxAttempts) :
    runOnce cfg now (SendOutcome.err e) s =
      { doc :=
          { s.doc with
            status := Status.queued,
            lastResult := some e.message,
            attemptCount := s.doc.attemptCount + 1 },
        history := s.history, dead := s.dead,
        writes := s.writes ++ [Status.processing, Status.queued],
        requeues := s.requeues + 1 } := by
  unfold runOnce
  rw [if_pos ⟨hstatus, hdue⟩]
  simp [processJob, applyResult, hstatus, hdry, hretry, htarget, hlt]

/-- One worker run over a due, claimed job whose dispatch fails with no
attempt remaining (or a fatal error): the job lands in `error` with
`attemptCount` incremented and a dead letter appended; the status writes
are `processing` then `error` and the requeue count is unchanged. -/
theorem runOnce_exhaust_final (cfg : Config) (now : Int) (e : ErrSig) (s : RunState)
    (hdry : cfg.dryRun = false)
    (hstatus : s.doc.status = Status.queued) (hdue : s.doc.scheduleTime ≤ now)
    (htarget : ¬(toSafeString s.doc.topic = none ∧ toSafeString s.doc.token = none))
    (hge : ¬(s.doc.attemptCount + 1 < cfg.maxAttempts)) :
    runOnce cfg now (SendOutcome.err e) s =
      { doc :=
          { s.doc with
            status := Status.error,
            lastResult := some e.message,
            attemptCount := s.doc.attemptCount + 1 },
        history := s.history,
        dead := s.dead ++
          [{ refId := s.doc.id,
             payload := { title := (toSafeString s.doc.title).getD "Pemberitahuan",
                          body := (toSafeString s.doc.body).getD "",
                          topic := toSafeString s.doc.topic,
                          token := toSafeString s.doc.token,
                          imageUrl := toSafeString s.doc.imageUrl,
                          action := toSafeString s.doc.action,
                          additionalData := s.doc.additionalData,
                          debug := s.doc.debug,
                          expiry := toSafeString s.doc.expiry },
             error := e.message, attempts := s.doc.attemptCount + 1,
             fromTag := "github-actions" }],
        writes := s.writes ++ [Status.processing, Status.error],
        requeues := s.requeues } := by
  unfold runOnce
  rw [if_pos ⟨hstatus, hdue⟩]
  simp [processJob, applyResult, hstatus, hdry, htarget, hge]

/-- Invariant of the retry phase: while attempts remain, after `j` runs
against an always-retryable failure the job is back in `queued` with
`attemptCount = j`, nothing has been appended, the status writes are `j`
copies of `processing, queued`, and the job has been requeued `j` times. -/
theorem runN_retry_phase (cfg : Config) (now : Int) (e : ErrSig) (d0 : DocData)
    (hdry : cfg.dryRun = false) (hretry : isRetryableError e = true)
    (hstatus : d0.status = Status.queued) (hatt : d0.attemptCount = 0)
    (hdue : d0.scheduleTime ≤ now)
    (htarget : ¬(toSafeString d0.topic = none ∧ toSafeString d0.token = none)) :
    ∀ j, j < cfg.maxAttempts →
      runN cfg now (SendOutcome.err e) j ⟨d0, [], [], [], 0⟩ =
        ⟨{ d0 with
           status := Status.queued,
           lastResult := if j = 0 then d0.lastResult else some e.message,
           attemptCount := j },
         [], [], (List.replicate j [Status.processing, Status.queued]).flatten, j⟩ := by
  intro j
  induction j with
  | zero =>
    intro _
    simp only [runN, List.replicate, List.flatten, if_pos]
    congr 1
    rw [← hstatus, ← hatt]
  | succ j ih =>
    intro hj1
    have hj : j < cfg.maxAttempts := Nat.lt_of_succ_lt hj1
    rw [runN, ih hj,
      runOnce_retry_mid cfg now e _ hdry hretry rfl hdue htarget hj1]
    refine congrArg₂ _ ?_ ?_ <;> simp [List.replicate_succ', List.flatten_concat]

/-- Claim C2: a due job whose every dispatch attempt fails with a
retryable-classified error cycles `queued → processing → queued` exactly
`maxAttempts - 1` times — each cycle incrementing `attemptCount` by one
and setting `lastResult` to the error text — and after the final attempt
lands in `error` with `attemptCount = maxAttempts` and exactly one
DeadLetterRecord appended. -/
theorem retryable_failures_exhaust_attempts (cfg : Config) (now : Int) (e : ErrSig)
    (d0 : DocData)
    (hM : 1 ≤ cfg.maxAttempts)
    (hdry : cfg.dryRun = false) (hretry : isRetryableError e = true)
    (hstatus : d0.status = Status.queued) (hatt : d0.attemptCount = 0)
    (hdue : d0.scheduleTime ≤ now)
    (htarget : ¬(toSafeString d0.topic = none ∧ toSafeString d0.token = none)) :
    (∀ j, j < cfg.maxAttempts →
      (runN cfg now (SendOutcome.err e) j ⟨d0, [], [], [], 0⟩).doc.status =
        Status.queued ∧
      (runN cfg now (SendOutcome.err e) j ⟨d0, [], [], [], 0⟩).doc.attemptCount = j ∧
      (runN cfg now (SendOutcome.err e) j ⟨d0, [], [], [], 0⟩).requeues = j ∧
      (runN cfg now (SendOutcome.err e) j ⟨d0, [], [], [], 0⟩).dead = [] ∧
      (1 ≤ j →
        (runN cfg now (SendOutcome.err e) j ⟨d0, [], [], [], 0⟩).doc.lastResult =
          some e.message)) ∧
    (runN cfg now (SendOutcome.err e) cfg.maxAttempts ⟨d0, [], [], [], 0⟩).doc.status =
      Status.error ∧
    (runN cfg now (SendOutcome.err e) cfg.maxAttempts
        ⟨d0, [], [], [], 0⟩).doc.attemptCount = cfg.maxAttempts ∧
    (runN cfg now (SendOutcome.err e) cfg.maxAttempts
        ⟨d0, [], [], [], 0⟩).doc.lastResult = some e.message ∧
    (runN cfg now (SendOutcome.err e) cfg.maxAttempts ⟨d0, [], [], [], 0⟩).dead =
      [{ refId := d0.id,
         payload := { title := (toSafeString d0.title).getD "Pemberitahuan",
                      body := (toSafeString d0.body).getD "",
                      topic := toSafeString d0.topic,
                      token := toSafeString d0.token,
                      imageUrl := toSafeString d0.imageUrl,
                      action := toSafeString d0.action,
                      additionalData := d0.additionalData,
                      debug := d0.debug,
                      expiry := toSafeString d0.expiry },
         error := e.message, attempts := cfg.maxAttempts,
         fromTag := "github-actions" }] ∧
    (runN cfg now (SendOutcome.err e) cfg.maxAttempts ⟨d0, [], [], [], 0⟩).requeues =
      cfg.maxAttempts - 1 ∧
    (runN cfg now (SendOutcome.err e) cfg.maxAttempts ⟨d0, [], [], [], 0⟩).writes =
      (List.replicate (cfg.maxAttempts - 1)
        [Status.processing, Status.queued]).flatten ++
        [Status.processing, Status.error] := by
  have phase := runN_retry_phase cfg now e d0 hdry hretry hstatus hatt hdue htarget
  constructor
  · intro j hj
    rw [phase j hj]
    refine ⟨rfl, rfl, rfl, rfl, fun h1 => ?_⟩
    have : ¬(j = 0) := by omega
    simp [this]
  · have hM1 : cfg.maxAttempts - 1 < cfg.maxAttempts := by omega
    have hsucc : cfg.maxAttempts - 1 + 1 = cfg.maxAttempts := by omega
    have hstep : runN cfg now (SendOutcome.err e) cfg.maxAttempts ⟨d0, [], [], [], 0⟩ =
        runOnce cfg now (SendOutcome.err e)
          (runN cfg now (SendOutcome.err e) (cfg.maxAttempts - 1) ⟨d0, [], [], [], 0⟩) := by
      conv_lhs => rw [← hsucc]
      rfl
    rw [hstep, phase _ hM1,
      runOnce_exhaust_final cfg now e _ hdry rfl hdue htarget (by simp; omega)]
    refine ⟨rfl, by simp [hsucc], rfl, by simp [hsucc], rfl, rfl⟩

/-- The transient error of the spec's worked example. -/
def transientUnavailableErr : ErrSig :=
  { code := none, errorInfoCode := none, message := "unavailable" }

/-- Claim C2 witness: the spec's example — sample job, `maxAttempts = 5`,
gateway always returning the transient `unavailable` error: five runs end
in `error` with `attemptCount = 5`, one dead letter and four requeues. -/
theorem retryable_failures_exhaust_attempts_witness :
    (runN ⟨false, 5⟩ 0 (SendOutcome.err transientUnavailableErr) 5
        ⟨sampleDoc, [], [], [], 0⟩).doc.status = Status.error ∧
    (runN ⟨false, 5⟩ 0 (SendOutcome.err transientUnavailableErr) 5
        ⟨sampleDoc, [], [], [], 0⟩).doc.attemptCount = 5 ∧
    (runN ⟨false, 5⟩ 0 (SendOutcome.err transientUnavailableErr) 5
        ⟨sampleDoc, [], [], [], 0⟩).doc.lastResult =
      some transientUnavailableErr.message ∧
    (runN ⟨false, 5⟩ 0 (SendOutcome.err transientUnavailableErr) 5
        ⟨sampleDoc, [], [], [], 0⟩).dead =
      [{ refId := sampleDoc.id,
         payload := { title := (toSafeString sampleDoc.title).getD "Pemberitahuan",
                      body := (toSafeString sampleDoc.body).getD "",
                      topic := toSafeString sampleDoc.topic,
                      token := toSafeString sampleDoc.token,
                      imageUrl := toSafeString sampleDoc.imageUrl,
                      action := toSafeString sampleDoc.action,
                      additionalData := sampleDoc.additionalData,
                      debug := sampleDoc.debug,
                      expiry := toSafeString sampleDoc.expiry },
         error := transientUnavailableErr.message, attempts := 5,
         fromTag := "github-actions" }] ∧
    (runN ⟨false, 5⟩ 0 (SendOutcome.err transientUnavailableErr) 5
        ⟨sampleDoc, [], [], [], 0⟩).requeues = 4 ∧
    (runN ⟨false, 5⟩ 0 (SendOutcome.err transientUnavailableErr) 5
        ⟨sampleDoc, [], [], [], 0⟩).writes =
      (List.replicate 4 [Status.processing, Status.queued]).flatten ++
        [Status.processing, Status.error] :=
  (retryable_failures_exhaust_attempts ⟨false, 5⟩ 0 transientUnavailableErr sampleDoc
    (by decide) rfl (by decide) rfl rfl (by decide) (by decide)).2

end InfraScheduler
